import Mathlib

/-!
Verification of the TalentLayer SDK escrow / platform / configuration core.

The TypeScript sources are shallowly embedded: asynchronous methods that
perform ledger or subgraph I/O become pure Lean functions over an explicit
environment record (one field per external read or transaction outcome),
returning the JS result (`Except` for thrown errors) together with the list
of externally visible calls (`Event`s) the method performed, in order.
Machine numbers are `Nat`/`Int`; JS falsiness of optional strings is made
explicit; string compare is exact, as in the source.
-/

namespace TalentLayer

/-- JS falsiness of an optional string field: `!x` is true for a missing
field (`undefined`) and for the empty string. -/
def strFalsy : Option String → Bool
  | none => true
  | some s => s.isEmpty

/-- The zero address, `AddressZero` in `src/constants` and `zeroAddress` in
viem: the native-currency sentinel. -/
def AddressZero : String := "0x0000000000000000000000000000000000000000"

namespace RateToken

/-- Modelled from the spec: the `RateToken` enum member used by
`Escrow.approve` is not under `src/`; §6 fixes the native-currency sentinel
as the chain zero address. -/
def NATIVE : String := AddressZero

end RateToken

/-- Modelled from the spec: `FEE_RATE_DIVIDER` (`src/constants`) is not
under `src/`; §6 fixes it as a constant integer divider, e.g. 10000, and §8
uses 10000 in its worked example. -/
def FEE_RATE_DIVIDER : Nat := 10000

/-- Modelled from the spec: `calculateApprovalAmount` (`src/utils/fees`) is
imported by `Escrow.approve` but its file is not under `src/`. §4.3: total
equals the base rate amount plus the three fee components, each computed
independently against the same base as `rateAmount * feeRate / divider`
with integer (truncating) division, never compounded. -/
def calculateApprovalAmount
    (rateAmount originServiceFeeRate originValidatedProposalFeeRate
     protocolEscrowFeeRate : Nat) : Nat :=
  rateAmount
    + rateAmount * originServiceFeeRate / FEE_RATE_DIVIDER
    + rateAmount * originValidatedProposalFeeRate / FEE_RATE_DIVIDER
    + rateAmount * protocolEscrowFeeRate / FEE_RATE_DIVIDER

/-- JS `Math.round` on exact rationals: round half up, `⌊x + 1/2⌋`. -/
def jsRound (x : ℚ) : Int := ⌊x + 1 / 2⌋

/-- JS `toLowerCase` on the ASCII address strings this SDK compares:
character-wise ASCII lowercasing. -/
def asciiLower (s : String) : String := String.mk (s.data.map Char.toLower)

/-! ### Chain configuration (src/packages/client/src/config.ts) -/

/-- Entry of a network token registry (`IToken`; ABI-free data only). -/
structure Token where
  address : String
  symbol : String
  name : String
  decimals : Nat
deriving DecidableEq

/-- The six contract addresses of a network's contract registry. The `abi`
descriptors are imported JSON, not data of this core, and are elided. -/
structure Contracts where
  talentLayerId : String
  talentLayerService : String
  talentLayerReview : String
  talentLayerEscrow : String
  talentLayerPlatformId : String
  talentLayerArbitrator : String
deriving DecidableEq

/-- Escrow parameters of a network configuration. -/
structure EscrowConfig where
  adminFee : String
  adminWallet : String
  timeoutPayment : Nat
deriving DecidableEq

/-- Per-network configuration (`Config` in `src/types`). -/
structure Config where
  networkId : Nat
  subgraphUrl : String
  contracts : Contracts
  escrowConfig : EscrowConfig
  tokens : List Token
deriving DecidableEq

namespace NetworkEnum

/-- `NetworkEnum.LOCAL` (src/types: `LOCAL = 1337`). -/
def LOCAL : Nat := 1337

/-- `NetworkEnum.MUMBAI` (src/types: `MUMBAI = 80001`). -/
def MUMBAI : Nat := 80001

/-- `NetworkEnum.AMOY`; numeral from the Amoy chain id 80002 declared in
`src/blockchain-bindings/chains.ts`. -/
def AMOY : Nat := 80002

/-- `NetworkEnum.IEXEC`; numeral from the iExec chain id 134 declared in
`src/blockchain-bindings/chains.ts`. -/
def IEXEC : Nat := 134

/-- `NetworkEnum.POLYGON`; numeral 137 is the Polygon mainnet chain id of
the viem `polygon` chain used in `src/blockchain-bindings/chains.ts`. -/
def POLYGON : Nat := 137

/-- Modelled from the spec: `NetworkEnum.FUJI` is referenced by `config.ts`
but its numeral is not under `src/`; 43113 is the Avalanche Fuji chain id. -/
def FUJI : Nat := 43113

end NetworkEnum

/-- The `amoy` network configuration of `config.ts`. -/
def amoy : Config where
  networkId := NetworkEnum.AMOY
  subgraphUrl := "https://api.studio.thegraph.com/query/41228/tl-graph-amoy/v0.0.1"
  contracts :=
    { talentLayerId := "0xBe0d91F2371e23b9A26Fb8949E041A65dD0aDe83"
      talentLayerService := "0x5394632Fe8044BF3c3eF6fBD30d1121d5d796542"
      talentLayerReview := "0x194D3a30Ad6274F169c78D64A538a8F472c47819"
      talentLayerEscrow := "0x466e65231DBe87b184c7cEeE8A319b4aB117915B"
      talentLayerPlatformId := "0xbE56916C64f80040d46Ea5B32E1e851cE752cD3f"
      talentLayerArbitrator := "0x0F39E0ffEaBE0C100768F16988F0c9405428E2D8" }
  escrowConfig :=
    { adminFee := "0"
      adminWallet := "0xC01FcDfDE3B2ABA1eab76731493C617FfAED2F10"
      timeoutPayment := 3600 * 24 * 7 }
  tokens :=
    [ { address := AddressZero, symbol := "MATIC", name := "Matic", decimals := 18 },
      { address := "0xe6b8a5CF854791412c1f6EFC7CAf629f5Df1c747", symbol := "USDC",
        name := "USDC Stablecoin", decimals := 6 } ]

/-- The `mumbai` network configuration of `config.ts`. -/
def mumbai : Config where
  networkId := NetworkEnum.MUMBAI
  subgraphUrl := "https://api.thegraph.com/subgraphs/name/talentlayer/talent-layer-mumbai"
  contracts :=
    { talentLayerId := "0x3F87289e6Ec2D05C32d8A74CCfb30773fF549306"
      talentLayerService := "0x27ED516dC1df64b4c1517A64aa2Bb72a434a5A6D"
      talentLayerReview := "0x050F59E1871d3B7ca97e6fb9DCE64b3818b14B18"
      talentLayerEscrow := "0x4bE920eC3e8552292B2147480111063E0dc36872"
      talentLayerPlatformId := "0xEFD8dbC421380Ee04BAdB69216a0FD97F64CbFD4"
      talentLayerArbitrator := "0x2CA01a0058cfB3cc4755a7773881ea88eCfBba7C" }
  escrowConfig :=
    { adminFee := "0"
      adminWallet := "0xC01FcDfDE3B2ABA1eab76731493C617FfAED2F10"
      timeoutPayment := 3600 * 24 * 7 }
  tokens :=
    [ { address := AddressZero, symbol := "MATIC", name := "Matic", decimals := 18 },
      { address := "0xe6b8a5CF854791412c1f6EFC7CAf629f5Df1c747", symbol := "USDC",
        name := "USDC Stablecoin", decimals := 6 } ]

/-- The `iexec` network configuration of `config.ts`. -/
def iexec : Config where
  networkId := NetworkEnum.IEXEC
  subgraphUrl := "https://thegraph-sandbox.iex.ec/subgraphs/name/users/talentLayer"
  contracts :=
    { talentLayerId := "0xC51537E03f56650C63A9Feca4cCb5a039c77c822"
      talentLayerService := "0x45E8F869Fd316741A9316f39bF09AD03Df88496f"
      talentLayerReview := "0x6A5BF452108DA389B7B38284E871f538671Ad375"
      talentLayerEscrow := "0x7A534501a6e63448EBC691f27B27B76d4F9b7E17"
      talentLayerPlatformId := "0x05D8A2E01EB06c284ECBae607A2d0c2BE946Bf49"
      talentLayerArbitrator := "0x24cEd045b50cF811862B1c33dC6B1fbC8358F521" }
  escrowConfig :=
    { adminFee := "0"
      adminWallet := "0x2E6f7222d4d7A71B05E7C35389d23C3dB400851f"
      timeoutPayment := 3600 * 24 * 7 }
  tokens :=
    [ { address := "0x0000000000000000000000000000000000000000", symbol := "RLC",
        name := "iExec RLC", decimals := 18 },
      { address := "0xe62C28709E4F19Bae592a716b891A9B76bf897E4", symbol := "SERC20",
        name := "SimpleERC20", decimals := 18 } ]

/-- The `polygon` network configuration of `config.ts`. -/
def polygon : Config where
  networkId := NetworkEnum.POLYGON
  subgraphUrl := "https://api.thegraph.com/subgraphs/name/talentlayer/talentlayer-polygon"
  contracts :=
    { talentLayerId := "0xD7D1B2b0A665F03618cb9a45Aa3070f789cb91f2"
      talentLayerService := "0xae8Bba1a403816568230d92099ccB87f41BbcA78"
      talentLayerReview := "0x7bBC20c8Fcb75A126810161DFB1511f6D3B1f2bE"
      talentLayerEscrow := "0x21C716673897f4a2A3c12053f3973F51Ce7b0cf6"
      talentLayerPlatformId := "0x09FF07297d48eD9aD870caCE4b33BF30869C1D17"
      talentLayerArbitrator := "0x4502E695A747F1b382a16D6C8AE3FD94DA78e7a0" }
  escrowConfig :=
    { adminFee := "0"
      adminWallet := "0x2E6f7222d4d7A71B05E7C35389d23C3dB400851f"
      timeoutPayment := 3600 * 24 * 7 }
  tokens :=
    [ { address := "0x0000000000000000000000000000000000000000", symbol := "MATIC",
        name := "Matic", decimals := 18 },
      { address := "0x2791Bca1f2de4661ED88A30C99A7a9449Aa84174", symbol := "USDC",
        name := "USDC", decimals := 6 },
      { address := "0x7ceB23fD6bC0adD59E62ac25578270cFf1b9f619", symbol := "WETH",
        name := "WETH", decimals := 18 } ]

/-- The `fuji` network configuration of `config.ts`. -/
def fuji : Config where
  networkId := NetworkEnum.FUJI
  subgraphUrl := "https://api.studio.thegraph.com/query/41228/tl-graph-fuji/version/latest"
  contracts :=
    { talentLayerId := "0x11BF027d41011a050c77E3BE7fB1942500C29928"
      talentLayerService := "0x037a42146f7803Ac85Eeb201A8aab483E10c3E1A"
      talentLayerReview := "0x5b1e55ca26f8128155f35a0c5804e292B1b66bb7"
      talentLayerEscrow := "0x2D11f75E4af6626bA457532429D5FA6bF18ac011"
      talentLayerPlatformId := "0x5582d6493449a9c8aE353715eaE55794056dBF19"
      talentLayerArbitrator := "0x0000000000000000000000000000000000000000" }
  escrowConfig :=
    { adminFee := "0"
      adminWallet := "0x754edfB906252B304f89c59c61f4368028bdcE6c"
      timeoutPayment := 3600 * 24 * 7 }
  tokens :=
    [ { address := "0x0000000000000000000000000000000000000000", symbol := "AVAX",
        name := "Avax", decimals := 18 },
      { address := "0xAF82969ECF299c1f1Bb5e1D12dDAcc9027431160", symbol := "USDC",
        name := "USDC Stablecoin", decimals := 6 } ]

/-- `getChainConfig = (networkId) => chains[networkId]`: indexing the
`chains` object. A JS property access off the key set yields `undefined`,
modelled as `none`; `LOCAL` maps to the `mumbai` placeholder as in the
source. -/
def getChainConfig (networkId : Nat) : Option Config :=
  if networkId = NetworkEnum.AMOY then some amoy
  else if networkId = NetworkEnum.MUMBAI then some mumbai
  else if networkId = NetworkEnum.IEXEC then some iexec
  else if networkId = NetworkEnum.POLYGON then some polygon
  else if networkId = NetworkEnum.FUJI then some fuji
  else if networkId = NetworkEnum.LOCAL then some mumbai
  else none

/-! ### External calls performed by the operations -/

/-- Externally visible calls an operation performs, in order: subgraph fee
query, ERC-20 allowance read, ERC-20 approve submission, and the ledger
writes (`createTransaction` with its optional native value, the
release/reimburse writes, and the platform writes). -/
inductive Event
  | feeResolverCall (servicePlatformId proposalPlatformId : String)
  | allowanceCheck (token : String)
  | erc20Approve (token : String) (amount : Nat)
  | createTransaction (serviceId sellerId : Nat) (metaEvidenceCid cid : String)
      (value : Option Nat)
  | escrowWrite (method : String) (userId : Nat) (transactionId : String) (amount : Nat)
  | arbitratorWrite (platformId : Nat) (address : String)
  | feeRateWrite (method : String) (platformId : Nat) (rate : Int)
deriving DecidableEq

/-! ### Escrow.approve (src/packages/client/src/types/index.ts, Escrow) -/

/-- The fields of the subgraph proposal that `Escrow.approve` reads:
`cid`, `seller.id`, `rateAmount`, `rateToken.address`,
`service.platform.id` and `platform.id`. -/
structure Proposal where
  cid : Option String
  sellerId : Nat
  rateAmount : Nat
  rateTokenAddress : String
  servicePlatformId : String
  proposalPlatformId : String
deriving DecidableEq

/-- The fee-rate triple assembled from the `getProtocolAndPlatformsFees`
response: `servicePlatform.originServiceFeeRate`,
`proposalPlatform.originValidatedProposalFeeRate`,
`protocols[0].protocolEscrowFeeRate`. -/
structure FeeRates where
  originServiceFeeRate : Nat
  originValidatedProposalFeeRate : Nat
  protocolEscrowFeeRate : Nat
deriving DecidableEq

/-- Outcome of the ERC-20 approval sub-flow of `approve`: the
`erc20.approve` submission throws, the `waitForTransactionReceipt` call
throws, or a receipt with the given `status` string is returned. -/
inductive ApprovalOutcome
  | submitThrows
  | waitThrows
  | receipt (status : String)
deriving DecidableEq

/-- One invocation's view of the external world, one field per external
read or transaction outcome `Escrow.approve` can observe. -/
structure ApproveEnv where
  proposal : Option Proposal
  fees : Option FeeRates
  allowance : Nat
  approvalOutcome : ApprovalOutcome
  createTxHash : Option String
deriving DecidableEq

/-- Final `createTransaction` write of `approve` (shared tail of the two
token branches): the returned `tx` is truthy or the method throws
`Error creating Transaction`. -/
def escrowCreate (env : ApproveEnv) (serviceId : Nat) (p : Proposal)
    (metaEvidenceCid cid : String) (value : Option Nat) (evs : List Event) :
    Except String (String × String) × List Event :=
  let evs := evs ++ [Event.createTransaction serviceId p.sellerId metaEvidenceCid cid value]
  match env.createTxHash with
  | some tx => (Except.ok (tx, cid), evs)
  | none => (Except.error "Error creating Transaction", evs)

/-- `Escrow.approve(serviceId, proposalId, metaEvidenceCid)`. The proposal
fetch, fee query, allowance read, approval submission and receipt wait are
resolved against `env`; returns the `{tx, cid}` payload or the thrown
error message, with the trace of external calls. The source's try/catch
around the approval sub-flow turns every failure inside it (submission
throw, receipt-wait throw, and the `Unable to get approval` thrown on a
non-success receipt status) into `Approval transaction failed with error`. -/
def approve (env : ApproveEnv) (serviceId : Nat) (metaEvidenceCid : String) :
    Except String (String × String) × List Event :=
  match env.proposal with
  | none => (Except.error "Proposal not found", [])
  | some proposal =>
    if strFalsy proposal.cid then
      (Except.error "Proposal cid not found", [])
    else
      let cid := proposal.cid.getD ""
      let evs := [Event.feeResolverCall proposal.servicePlatformId proposal.proposalPlatformId]
      match env.fees with
      | none => (Except.error "Unable to fetch fees", evs)
      | some fees =>
        let approvalAmount := calculateApprovalAmount proposal.rateAmount
          fees.originServiceFeeRate fees.originValidatedProposalFeeRate
          fees.protocolEscrowFeeRate
        if proposal.rateTokenAddress = RateToken.NATIVE then
          escrowCreate env serviceId proposal metaEvidenceCid cid (some approvalAmount) evs
        else
          let evs := evs ++ [Event.allowanceCheck proposal.rateTokenAddress]
          if env.allowance < approvalAmount then
            let evs := evs ++ [Event.erc20Approve proposal.rateTokenAddress approvalAmount]
            match env.approvalOutcome with
            | ApprovalOutcome.submitThrows =>
              (Except.error "Approval transaction failed with error", evs)
            | ApprovalOutcome.waitThrows =>
              (Except.error "Approval transaction failed with error", evs)
            | ApprovalOutcome.receipt status =>
              if status = "success" then
                escrowCreate env serviceId proposal metaEvidenceCid cid none evs
              else
                (Except.error "Approval transaction failed with error", evs)
          else
            escrowCreate env serviceId proposal metaEvidenceCid cid none evs

/-! ### Escrow.release / Escrow.reimburse -/

/-- The field of the subgraph service these methods read:
`service.transaction.id` (`none` when the service or its transaction is
absent). -/
structure Service where
  transactionId : Option String
deriving DecidableEq

/-- One invocation's view of the external world for `release`/`reimburse`. -/
structure ReleaseEnv where
  service : Option Service
  txHash : String
deriving DecidableEq

/-- `Escrow.release(serviceId, amount, userId)`: resolve
`service?.transaction?.id`; when falsy, throw before any ledger write (the
source's second, identical guard is unreachable); otherwise submit the
`release` write. -/
def release (env : ReleaseEnv) (amount userId : Nat) :
    Except String String × List Event :=
  let transactionId := env.service.bind Service.transactionId
  if strFalsy transactionId then
    (Except.error "service transaction not found", [])
  else
    (Except.ok env.txHash,
      [Event.escrowWrite "release" userId (transactionId.getD "") amount])

/-- `Escrow.reimburse(serviceId, amount, userId)`: same shape as `release`
with the `reimburse` ledger method. -/
def reimburse (env : ReleaseEnv) (amount userId : Nat) :
    Except String String × List Event :=
  let transactionId := env.service.bind Service.transactionId
  if strFalsy transactionId then
    (Except.error "service transaction not found", [])
  else
    (Except.ok env.txHash,
      [Event.escrowWrite "reimburse" userId (transactionId.getD "") amount])

/-! ### Platform (src/unnamed/part_000) -/

/-- An allow-list entry of `Platform.getArbitrators`. -/
structure Arbitrator where
  address : String
  name : String
deriving DecidableEq

/-- `Platform.getArbitrators`: the allow-list derived from the resolved
chain configuration (the custom-config override, when present, is already
folded into `chainConfig` by the caller, as in the source's precedence
rule). -/
def getArbitrators (chainConfig : Config) : List Arbitrator :=
  [ { address := AddressZero, name := "None" },
    { address := chainConfig.contracts.talentLayerArbitrator, name := "TalentLayer Arbitrator" } ]

/-- `Platform.updateArbitrator(address)`: lower-case the allow-list and the
candidate, throw `Invalid Arbitrator: <address>` on a non-member, else
submit the `updateArbitrator` ledger write. -/
def updateArbitrator (chainConfig : Config) (platformID : Nat)
    (address txHash : String) : Except String String × List Event :=
  let allowedArbitratorAddresses :=
    (getArbitrators chainConfig).map (fun a => asciiLower a.address)
  if allowedArbitratorAddresses.contains (asciiLower address) then
    (Except.ok txHash, [Event.arbitratorWrite platformID address])
  else
    (Except.error ("Invalid Arbitrator: " ++ address), [])

/-- `Platform.updateOriginServiceFeeRate(value)`: transform the percentage
input with `Math.round(value * FEE_RATE_DIVIDER / 100)` and submit it. -/
def updateOriginServiceFeeRate (platformID : Nat) (value : ℚ) (txHash : String) :
    String × List Event :=
  let transformedFeeRate := jsRound (value * (FEE_RATE_DIVIDER : ℚ) / 100)
  (txHash, [Event.feeRateWrite "updateOriginServiceFeeRate" platformID transformedFeeRate])

/-- `Platform.updateOriginValidatedProposalFeeRate(value)`: same transform
as `updateOriginServiceFeeRate`, submitted to the other ledger method. -/
def updateOriginValidatedProposalFeeRate (platformID : Nat) (value : ℚ)
    (txHash : String) : String × List Event :=
  let transformedFeeRate := jsRound (value * (FEE_RATE_DIVIDER : ℚ) / 100)
  (txHash,
    [Event.feeRateWrite "updateOriginValidatedProposalFeeRate" platformID transformedFeeRate])

/-! ### Concrete sample inputs used by witnesses and counterexamples -/

/-- A proposal paying in the native currency, rate amount 1000000. -/
def pNative : Proposal where
  cid := some "QmProposalCid"
  sellerId := 2
  rateAmount := 1000000
  rateTokenAddress := RateToken.NATIVE
  servicePlatformId := "1"
  proposalPlatformId := "4"

/-- The fee-rate triple of the spec's worked example: 5%, 2%, 3% of a
10000 divider. -/
def feesSample : FeeRates where
  originServiceFeeRate := 500
  originValidatedProposalFeeRate := 200
  protocolEscrowFeeRate := 300

/-- A proposal paying in the Mumbai USDC ERC-20 token. -/
def pErc20 : Proposal where
  cid := some "QmProposalCid"
  sellerId := 2
  rateAmount := 1000000
  rateTokenAddress := "0xe6b8a5CF854791412c1f6EFC7CAf629f5Df1c747"
  servicePlatformId := "1"
  proposalPlatformId := "4"

/-- Native-token environment: everything resolves, write succeeds. -/
def envNative : ApproveEnv where
  proposal := some pNative
  fees := some feesSample
  allowance := 0
  approvalOutcome := ApprovalOutcome.receipt "success"
  createTxHash := some "0xhash"

/-- ERC-20 environment whose observed allowance 2000000 already exceeds
the required 1100000. -/
def envAllowanceHigh : ApproveEnv where
  proposal := some pErc20
  fees := some feesSample
  allowance := 2000000
  approvalOutcome := ApprovalOutcome.receipt "success"
  createTxHash := some "0xhash"

/-- ERC-20 environment with zero allowance and a successful approval. -/
def envAllowanceLow : ApproveEnv where
  proposal := some pErc20
  fees := some feesSample
  allowance := 0
  approvalOutcome := ApprovalOutcome.receipt "success"
  createTxHash := some "0xhash"

/-- ERC-20 environment whose approval receipt carries a failure status. -/
def envReceiptFailed : ApproveEnv where
  proposal := some pErc20
  fees := some feesSample
  allowance := 0
  approvalOutcome := ApprovalOutcome.receipt "reverted"
  createTxHash := some "0xhash"

/-- ERC-20 environment whose approval submission throws. -/
def envSubmitThrows : ApproveEnv where
  proposal := some pErc20
  fees := some feesSample
  allowance := 0
  approvalOutcome := ApprovalOutcome.submitThrows
  createTxHash := some "0xhash"

/-- Environment whose fetched proposal has no content identifier. -/
def envNoCid : ApproveEnv where
  proposal := some { pNative with cid := none }
  fees := some feesSample
  allowance := 0
  approvalOutcome := ApprovalOutcome.receipt "success"
  createTxHash := some "0xhash"

/-- Release/reimburse environment whose service has no transaction id. -/
def envNoTransaction : ReleaseEnv where
  service := some { transactionId := none }
  txHash := "0xhash"

/-! ### Helper lemmas -/

/-- The trace of the final `createTransaction` write does not depend on
whether the returned hash is truthy. -/
theorem escrowCreate_snd (env : ApproveEnv) (serviceId : Nat) (p : Proposal)
    (metaEvidenceCid cid : String) (value : Option Nat) (evs : List Event) :
    (escrowCreate env serviceId p metaEvidenceCid cid value evs).2
      = evs ++ [Event.createTransaction serviceId p.sellerId metaEvidenceCid cid value] := by
  unfold escrowCreate
  cases env.createTxHash <;> rfl

/-! ### Claim theorems -/

/-- C2: for non-negative `rateAmount` and fee rates bounded by the
divider, the approval-amount calculator returns exactly the base plus the
three independently truncated fee components, and is monotonically
non-decreasing in each fee rate. -/
theorem calculateApprovalAmount_formula_monotone
    (a r1 r2 r3 s1 s2 s3 : Nat)
    (h1 : r1 ≤ FEE_RATE_DIVIDER) (h2 : r2 ≤ FEE_RATE_DIVIDER)
    (h3 : r3 ≤ FEE_RATE_DIVIDER)
    (g1 : r1 ≤ s1) (g2 : r2 ≤ s2) (g3 : r3 ≤ s3) :
    calculateApprovalAmount a r1 r2 r3
        = a + a * r1 / FEE_RATE_DIVIDER + a * r2 / FEE_RATE_DIVIDER
            + a * r3 / FEE_RATE_DIVIDER ∧
    calculateApprovalAmount a r1 r2 r3 ≤ calculateApprovalAmount a s1 s2 s3 := by
  refine ⟨rfl, ?_⟩
  unfold calculateApprovalAmount
  have m1 : a * r1 / FEE_RATE_DIVIDER ≤ a * s1 / FEE_RATE_DIVIDER :=
    Nat.div_le_div_right (Nat.mul_le_mul le_rfl g1)
  have m2 : a * r2 / FEE_RATE_DIVIDER ≤ a * s2 / FEE_RATE_DIVIDER :=
    Nat.div_le_div_right (Nat.mul_le_mul le_rfl g2)
  have m3 : a * r3 / FEE_RATE_DIVIDER ≤ a * s3 / FEE_RATE_DIVIDER :=
    Nat.div_le_div_right (Nat.mul_le_mul le_rfl g3)
  omega

/-- C2 witness: the spec's worked example, 1000000 at rates 500/200/300
over divider 10000, evaluates to 1100000 and is dominated by the total at
rate 600 in the first coordinate. -/
theorem calculateApprovalAmount_formula_monotone_witness :
    calculateApprovalAmount 1000000 500 200 300
        = 1000000 + 1000000 * 500 / FEE_RATE_DIVIDER
            + 1000000 * 200 / FEE_RATE_DIVIDER + 1000000 * 300 / FEE_RATE_DIVIDER ∧
    calculateApprovalAmount 1000000 500 200 300
        ≤ calculateApprovalAmount 1000000 600 200 300 :=
  calculateApprovalAmount_formula_monotone 1000000 500 200 300 600 200 300
    (by decide) (by decide) (by decide) (by decide) (by decide) (by decide)

/-- C1 counterexample: on a native-currency proposal with rate amount
1000000 and fee rates 500/200/300, `approve` records a Fee Schedule
Resolver call in its trace and submits the escrow creation with payment
value 1100000, which differs from the proposal's unmodified rate amount. -/
theorem approve_native_counterexample :
    approve envNative 1 "QmMeta"
        = (Except.ok ("0xhash", "QmProposalCid"),
           [Event.feeResolverCall "1" "4",
            Event.createTransaction 1 2 "QmMeta" "QmProposalCid" (some 1100000)]) ∧
    pNative.rateAmount = 1000000 ∧ (1100000 : Nat) ≠ 1000000 :=
  ⟨rfl, rfl, by decide⟩

/-- C1 amended: on the native-currency path `approve` performs no
allowance check and no ERC-20 approval, but it does query the Fee Schedule
Resolver before branching, and the escrow-creation call carries the
fee-inclusive `calculateApprovalAmount` total, not the raw rate amount. -/
theorem approve_native_path (env : ApproveEnv) (serviceId : Nat)
    (metaEvidenceCid : String) (p : Proposal) (f : FeeRates)
    (hp : env.proposal = some p) (hcid : strFalsy p.cid = false)
    (hf : env.fees = some f) (hn : p.rateTokenAddress = RateToken.NATIVE) :
    (approve env serviceId metaEvidenceCid).2
        = [Event.feeResolverCall p.servicePlatformId p.proposalPlatformId,
           Event.createTransaction serviceId p.sellerId metaEvidenceCid (p.cid.getD "")
             (some (calculateApprovalAmount p.rateAmount f.originServiceFeeRate
               f.originValidatedProposalFeeRate f.protocolEscrowFeeRate))] ∧
    (∀ t, Event.allowanceCheck t ∉ (approve env serviceId metaEvidenceCid).2) ∧
    (∀ t a, Event.erc20Approve t a ∉ (approve env serviceId metaEvidenceCid).2) := by
  have key : (approve env serviceId metaEvidenceCid).2
      = [Event.feeResolverCall p.servicePlatformId p.proposalPlatformId,
         Event.createTransaction serviceId p.sellerId metaEvidenceCid (p.cid.getD "")
           (some (calculateApprovalAmount p.rateAmount f.originServiceFeeRate
             f.originValidatedProposalFeeRate f.protocolEscrowFeeRate))] := by
    unfold approve
    rw [hp, hf]
    simp [hcid, hn, escrowCreate_snd]
  refine ⟨key, ?_, ?_⟩
  · intro t
    rw [key]
    simp
  · intro t a
    rw [key]
    simp

/-- C1 amended witness: the native sample environment instantiates the
amended native-path theorem. -/
theorem approve_native_path_witness :
    (approve envNative 1 "QmMeta").2
        = [Event.feeResolverCall pNative.servicePlatformId pNative.proposalPlatformId,
           Event.createTransaction 1 pNative.sellerId "QmMeta" (pNative.cid.getD "")
             (some (calculateApprovalAmount pNative.rateAmount
               feesSample.originServiceFeeRate feesSample.originValidatedProposalFeeRate
               feesSample.protocolEscrowFeeRate))] ∧
    (∀ t, Event.allowanceCheck t ∉ (approve envNative 1 "QmMeta").2) ∧
    (∀ t a, Event.erc20Approve t a ∉ (approve envNative 1 "QmMeta").2) :=
  approve_native_path envNative 1 "QmMeta" pNative feesSample rfl (by decide) rfl rfl

/-- C3: on the ERC-20 path, when the observed allowance already covers the
required approval amount, no allowance-raising transaction is submitted
and the escrow-creation call is still made. -/
theorem approve_sufficient_allowance_noop (env : ApproveEnv) (serviceId : Nat)
    (metaEvidenceCid : String) (p : Proposal) (f : FeeRates)
    (hp : env.proposal = some p) (hcid : strFalsy p.cid = false)
    (hf : env.fees = some f) (hn : p.rateTokenAddress ≠ RateToken.NATIVE)
    (hge : calculateApprovalAmount p.rateAmount f.originServiceFeeRate
        f.originValidatedProposalFeeRate f.protocolEscrowFeeRate ≤ env.allowance) :
    (∀ t a, Event.erc20Approve t a ∉ (approve env serviceId metaEvidenceCid).2) ∧
    Event.createTransaction serviceId p.sellerId metaEvidenceCid (p.cid.getD "") none
      ∈ (approve env serviceId metaEvidenceCid).2 := by
  have hnlt : ¬ env.allowance < calculateApprovalAmount p.rateAmount
      f.originServiceFeeRate f.originValidatedProposalFeeRate f.protocolEscrowFeeRate :=
    not_lt.mpr hge
  have key : (approve env serviceId metaEvidenceCid).2
      = [Event.feeResolverCall p.servicePlatformId p.proposalPlatformId,
         Event.allowanceCheck p.rateTokenAddress,
         Event.createTransaction serviceId p.sellerId metaEvidenceCid (p.cid.getD "") none] := by
    unfold approve
    rw [hp, hf]
    simp [hcid, hn, hnlt, escrowCreate_snd]
  refine ⟨?_, ?_⟩
  · intro t a
    rw [key]
    simp
  · rw [key]
    simp

/-- C3 witness: allowance 2000000 against required amount 1100000 leads to
no approval submission. -/
theorem approve_sufficient_allowance_noop_witness :
    (∀ t a, Event.erc20Approve t a ∉ (approve envAllowanceHigh 1 "QmMeta").2) ∧
    Event.createTransaction 1 pErc20.sellerId "QmMeta" (pErc20.cid.getD "") none
      ∈ (approve envAllowanceHigh 1 "QmMeta").2 :=
  approve_sufficient_allowance_noop envAllowanceHigh 1 "QmMeta" pErc20 feesSample
    rfl (by decide) rfl (by decide) (by decide)

/-- C4: whenever `approve` submits an ERC-20 approval, the submitted
amount is exactly the computed required approval amount for the fetched
proposal and fee rates (and the observed allowance was below it). -/
theorem approve_submits_exact_amount (env : ApproveEnv) (serviceId : Nat)
    (metaEvidenceCid t : String) (a : Nat)
    (hmem : Event.erc20Approve t a ∈ (approve env serviceId metaEvidenceCid).2) :
    ∃ p f, env.proposal = some p ∧ env.fees = some f ∧
      a = calculateApprovalAmount p.rateAmount f.originServiceFeeRate
            f.originValidatedProposalFeeRate f.protocolEscrowFeeRate ∧
      env.allowance < a ∧ t = p.rateTokenAddress := by
  rcases hp : env.proposal with _ | p
  · have key : (approve env serviceId metaEvidenceCid).2 = [] := by
      unfold approve
      rw [hp]
    rw [key] at hmem
    simp at hmem
  · by_cases hcid : strFalsy p.cid = true
    · have key : (approve env serviceId metaEvidenceCid).2 = [] := by
        unfold approve
        rw [hp]
        simp [hcid]
      rw [key] at hmem
      simp at hmem
    · rcases hf : env.fees with _ | f
      · have key : (approve env serviceId metaEvidenceCid).2
            = [Event.feeResolverCall p.servicePlatformId p.proposalPlatformId] := by
          unfold approve
          rw [hp, hf]
          simp [hcid]
        rw [key] at hmem
        simp at hmem
      · by_cases hn : p.rateTokenAddress = RateToken.NATIVE
        · have key : (approve env serviceId metaEvidenceCid).2
              = [Event.feeResolverCall p.servicePlatformId p.proposalPlatformId,
                 Event.createTransaction serviceId p.sellerId metaEvidenceCid (p.cid.getD "")
                   (some (calculateApprovalAmount p.rateAmount f.originServiceFeeRate
                     f.originValidatedProposalFeeRate f.protocolEscrowFeeRate))] := by
            unfold approve
            rw [hp, hf]
            simp [hcid, hn, escrowCreate_snd]
          rw [key] at hmem
          simp at hmem
        · by_cases hlt : env.allowance < calculateApprovalAmount p.rateAmount
              f.originServiceFeeRate f.originValidatedProposalFeeRate f.protocolEscrowFeeRate
          · have hta : t = p.rateTokenAddress ∧ a = calculateApprovalAmount p.rateAmount
                f.originServiceFeeRate f.originValidatedProposalFeeRate
                f.protocolEscrowFeeRate := by
              rcases ho : env.approvalOutcome with _ | _ | s
              · have key : (approve env serviceId metaEvidenceCid).2
                    = [Event.feeResolverCall p.servicePlatformId p.proposalPlatformId,
                       Event.allowanceCheck p.rateTokenAddress,
                       Event.erc20Approve p.rateTokenAddress
                         (calculateApprovalAmount p.rateAmount f.originServiceFeeRate
                           f.originValidatedProposalFeeRate f.protocolEscrowFeeRate)] := by
                  unfold approve
                  rw [hp, hf, ho]
                  simp [hcid, hn, hlt]
                rw [key] at hmem
                simpa using hmem
              · have key : (approve env serviceId metaEvidenceCid).2
                    = [Event.feeResolverCall p.servicePlatformId p.proposalPlatformId,
                       Event.allowanceCheck p.rateTokenAddress,
                       Event.erc20Approve p.rateTokenAddress
                         (calculateApprovalAmount p.rateAmount f.originServiceFeeRate
                           f.originValidatedProposalFeeRate f.protocolEscrowFeeRate)] := by
                  unfold approve
                  rw [hp, hf, ho]
                  simp [hcid, hn, hlt]
                rw [key] at hmem
                simpa using hmem
              · by_cases hs : s = "success"
                · have key : (approve env serviceId metaEvidenceCid).2
                      = [Event.feeResolverCall p.servicePlatformId p.proposalPlatformId,
                         Event.allowanceCheck p.rateTokenAddress,
                         Event.erc20Approve p.rateTokenAddress
                           (calculateApprovalAmount p.rateAmount f.originServiceFeeRate
                             f.originValidatedProposalFeeRate f.protocolEscrowFeeRate),
                         Event.createTransaction serviceId p.sellerId metaEvidenceCid
                           (p.cid.getD "") none] := by
                    unfold approve
                    rw [hp, hf, ho]
                    simp [hcid, hn, hlt, hs, escrowCreate_snd]
                  rw [key] at hmem
                  simpa using hmem
                · have key : (approve env serviceId metaEvidenceCid).2
                      = [Event.feeResolverCall p.servicePlatformId p.proposalPlatformId,
                         Event.allowanceCheck p.rateTokenAddress,
                         Event.erc20Approve p.rateTokenAddress
                           (calculateApprovalAmount p.rateAmount f.originServiceFeeRate
                             f.originValidatedProposalFeeRate f.protocolEscrowFeeRate)] := by
                    unfold approve
                    rw [hp, hf, ho]
                    simp [hcid, hn, hlt, hs]
                  rw [key] at hmem
                  simpa using hmem
            refine ⟨p, f, rfl, rfl, hta.2, ?_, hta.1⟩
            rw [hta.2]
            exact hlt
          · have key : (approve env serviceId metaEvidenceCid).2
                = [Event.feeResolverCall p.servicePlatformId p.proposalPlatformId,
                   Event.allowanceCheck p.rateTokenAddress,
                   Event.createTransaction serviceId p.sellerId metaEvidenceCid
                     (p.cid.getD "") none] := by
              unfold approve
              rw [hp, hf]
              simp [hcid, hn, hlt, escrowCreate_snd]
            rw [key] at hmem
            simp at hmem

/-- C4 witness: in the zero-allowance ERC-20 environment, the approval
event for amount 1100000 is in the trace, so the theorem instantiates. -/
theorem approve_submits_exact_amount_witness :
    ∃ p f, envAllowanceLow.proposal = some p ∧ envAllowanceLow.fees = some f ∧
      (1100000 : Nat) = calculateApprovalAmount p.rateAmount f.originServiceFeeRate
            f.originValidatedProposalFeeRate f.protocolEscrowFeeRate ∧
      envAllowanceLow.allowance < 1100000 ∧
      "0xe6b8a5CF854791412c1f6EFC7CAf629f5Df1c747" = p.rateTokenAddress :=
  approve_submits_exact_amount envAllowanceLow 1 "QmMeta"
    "0xe6b8a5CF854791412c1f6EFC7CAf629f5Df1c747" 1100000 (by decide)

/-- C5 counterexample: a failure-status receipt and a throwing submission
produce the identical error `Approval transaction failed with error`, so
the two stages are not distinguishable by distinct errors. -/
theorem approve_failure_stages_same_error :
    (approve envReceiptFailed 1 "QmMeta").1
        = Except.error "Approval transaction failed with error" ∧
    (approve envSubmitThrows 1 "QmMeta").1
        = Except.error "Approval transaction failed with error" :=
  ⟨rfl, rfl⟩

/-- C5 amended: every failure of the ERC-20 approval sub-flow — throwing
submission, throwing receipt wait, or failure-status receipt — terminates
`approve` with the single shared error `Approval transaction failed with
error`, after exactly one approval submission and without any
escrow-creation call (terminal, no retry). -/
theorem approve_erc20_failure_uniform (env : ApproveEnv) (serviceId : Nat)
    (metaEvidenceCid : String) (p : Proposal) (f : FeeRates)
    (hp : env.proposal = some p) (hcid : strFalsy p.cid = false)
    (hf : env.fees = some f) (hn : p.rateTokenAddress ≠ RateToken.NATIVE)
    (hlt : env.allowance < calculateApprovalAmount p.rateAmount
        f.originServiceFeeRate f.originValidatedProposalFeeRate f.protocolEscrowFeeRate)
    (hfail : env.approvalOutcome = ApprovalOutcome.submitThrows ∨
        env.approvalOutcome = ApprovalOutcome.waitThrows ∨
        ∃ s, env.approvalOutcome = ApprovalOutcome.receipt s ∧ s ≠ "success") :
    approve env serviceId metaEvidenceCid
      = (Except.error "Approval transaction failed with error",
         [Event.feeResolverCall p.servicePlatformId p.proposalPlatformId,
          Event.allowanceCheck p.rateTokenAddress,
          Event.erc20Approve p.rateTokenAddress
            (calculateApprovalAmount p.rateAmount f.originServiceFeeRate
              f.originValidatedProposalFeeRate f.protocolEscrowFeeRate)]) := by
  unfold approve
  rw [hp, hf]
  rcases hfail with h | h | ⟨s, hs, hne⟩
  · rw [h]
    simp [hcid, hn, hlt]
  · rw [h]
    simp [hcid, hn, hlt]
  · rw [hs]
    simp [hcid, hn, hlt, hne]

/-- C5 amended witness: the failure-status receipt environment reaches the
shared terminal error with a single approval submission in the trace. -/
theorem approve_erc20_failure_uniform_witness :
    approve envReceiptFailed 1 "QmMeta"
      = (Except.error "Approval transaction failed with error",
         [Event.feeResolverCall pErc20.servicePlatformId pErc20.proposalPlatformId,
          Event.allowanceCheck pErc20.rateTokenAddress,
          Event.erc20Approve pErc20.rateTokenAddress
            (calculateApprovalAmount pErc20.rateAmount feesSample.originServiceFeeRate
              feesSample.originValidatedProposalFeeRate feesSample.protocolEscrowFeeRate)]) :=
  approve_erc20_failure_uniform envReceiptFailed 1 "QmMeta" pErc20 feesSample
    rfl (by decide) rfl (by decide) (by decide)
    (Or.inr (Or.inr ⟨"reverted", rfl, by decide⟩))

/-- C6: a fetched proposal without a content identifier makes `approve`
fail with the missing-cid error on an empty trace, hence strictly before
any Fee Schedule Resolver call. -/
theorem approve_missing_cid (env : ApproveEnv) (serviceId : Nat)
    (metaEvidenceCid : String) (p : Proposal)
    (hp : env.proposal = some p) (hcid : strFalsy p.cid = true) :
    approve env serviceId metaEvidenceCid = (Except.error "Proposal cid not found", []) := by
  unfold approve
  rw [hp]
  simp [hcid]

/-- C6 witness: the cid-less sample environment fails before any call. -/
theorem approve_missing_cid_witness :
    approve envNoCid 1 "QmMeta" = (Except.error "Proposal cid not found", []) :=
  approve_missing_cid envNoCid 1 "QmMeta" { pNative with cid := none } rfl (by decide)

/-- C7: `release` and `reimburse` fail with the missing-transaction error
and an empty trace (no ledger write) when the service has no associated
on-chain transaction id. -/
theorem release_reimburse_missing_transaction (env : ReleaseEnv) (amount userId : Nat)
    (h : strFalsy (env.service.bind Service.transactionId) = true) :
    release env amount userId = (Except.error "service transaction not found", []) ∧
    reimburse env amount userId = (Except.error "service transaction not found", []) := by
  unfold release reimburse
  simp [h]

/-- C7 witness: a service without transaction id fails both operations. -/
theorem release_reimburse_missing_transaction_witness :
    release envNoTransaction 5 7 = (Except.error "service transaction not found", []) ∧
    reimburse envNoTransaction 5 7 = (Except.error "service transaction not found", []) :=
  release_reimburse_missing_transaction envNoTransaction 5 7 (by decide)

/-- C8: for every network configuration, `updateArbitrator` accepts (and
then writes) exactly the zero address and the configured arbitrator
address, compared case-insensitively, and rejects any other address with
the invalid-arbitrator error on an empty trace. -/
theorem updateArbitrator_allowlist (cfg : Config) (platformID : Nat)
    (address txHash : String) :
    ((asciiLower address = asciiLower AddressZero ∨
        asciiLower address = asciiLower cfg.contracts.talentLayerArbitrator) →
      updateArbitrator cfg platformID address txHash
        = (Except.ok txHash, [Event.arbitratorWrite platformID address])) ∧
    (asciiLower address ≠ asciiLower AddressZero →
      asciiLower address ≠ asciiLower cfg.contracts.talentLayerArbitrator →
      updateArbitrator cfg platformID address txHash
        = (Except.error ("Invalid Arbitrator: " ++ address), [])) := by
  constructor
  · intro h
    have hc : ((getArbitrators cfg).map (fun a => asciiLower a.address)).contains
        (asciiLower address) = true := by
      rcases h with h | h <;> simp [getArbitrators, h]
    simp only [updateArbitrator, hc]
    simp
  · intro h1 h2
    have hc : ((getArbitrators cfg).map (fun a => asciiLower a.address)).contains
        (asciiLower address) = false := by
      simp [getArbitrators, h1, h2]
    simp only [updateArbitrator, hc]
    simp

/-- C8 witness: on Mumbai, an upper-cased variant of the configured
arbitrator address is accepted and written, while a third address is
rejected with no write. -/
theorem updateArbitrator_allowlist_witness :
    updateArbitrator mumbai 1 "0x2CA01A0058CFB3CC4755A7773881EA88ECFBBA7C" "0xtx"
        = (Except.ok "0xtx",
           [Event.arbitratorWrite 1 "0x2CA01A0058CFB3CC4755A7773881EA88ECFBBA7C"]) ∧
    updateArbitrator mumbai 1 "0xdead" "0xtx"
        = (Except.error ("Invalid Arbitrator: " ++ "0xdead"), []) :=
  ⟨(updateArbitrator_allowlist mumbai 1 "0x2CA01A0058CFB3CC4755A7773881EA88ECFBBA7C" "0xtx").1
      (Or.inr (by decide)),
   (updateArbitrator_allowlist mumbai 1 "0xdead" "0xtx").2 (by decide) (by decide)⟩

/-- C9 counterexample: at the unsupported network identifier 9999 the
lookup returns `undefined` (`none`); it does not fail with an
`UnsupportedNetworkError`. -/
theorem getChainConfig_unsupported_undefined : getChainConfig 9999 = none := rfl

/-- C9 amended: the lookup is defined exactly on the closed set of
supported network identifiers and yields `undefined` (`none`), not an
error, for every identifier outside that set. -/
theorem getChainConfig_supported_set (networkId : Nat) :
    (getChainConfig networkId).isSome = true ↔
      (networkId = NetworkEnum.AMOY ∨ networkId = NetworkEnum.MUMBAI ∨
       networkId = NetworkEnum.IEXEC ∨ networkId = NetworkEnum.POLYGON ∨
       networkId = NetworkEnum.FUJI ∨ networkId = NetworkEnum.LOCAL) := by
  unfold getChainConfig
  split_ifs <;> simp_all

/-- C10: both fee-rate updaters submit `round(value * FEE_RATE_DIVIDER /
100)` — percentage converted to basis points with round-half-up
(`Math.round`), which stays within 1/2 of the exact value and differs
from truncation, e.g. at value 1/200 where rounding gives 1 but
truncation gives 0. -/
theorem updateFeeRates_round_to_basis_points (platformID : Nat) (v : ℚ)
    (txHash : String) :
    (updateOriginServiceFeeRate platformID v txHash).2
        = [Event.feeRateWrite "updateOriginServiceFeeRate" platformID
            (jsRound (v * (FEE_RATE_DIVIDER : ℚ) / 100))] ∧
    (updateOriginValidatedProposalFeeRate platformID v txHash).2
        = [Event.feeRateWrite "updateOriginValidatedProposalFeeRate" platformID
            (jsRound (v * (FEE_RATE_DIVIDER : ℚ) / 100))] ∧
    |(jsRound (v * (FEE_RATE_DIVIDER : ℚ) / 100) : ℚ) - v * 100| ≤ 1 / 2 ∧
    jsRound ((1 / 200 : ℚ) * (FEE_RATE_DIVIDER : ℚ) / 100) = 1 ∧
    ⌊((1 / 200 : ℚ) * (FEE_RATE_DIVIDER : ℚ) / 100)⌋ = 0 := by
  have hx : v * (FEE_RATE_DIVIDER : ℚ) / 100 = v * 100 := by
    norm_num [FEE_RATE_DIVIDER]
    ring
  refine ⟨rfl, rfl, ?_, ?_, ?_⟩
  · rw [hx]
    unfold jsRound
    have h1 : (⌊v * 100 + 1 / 2⌋ : ℚ) ≤ v * 100 + 1 / 2 := Int.floor_le _
    have h2 : v * 100 + 1 / 2 < ⌊v * 100 + 1 / 2⌋ + 1 := Int.lt_floor_add_one _
    rw [abs_le]
    constructor <;> linarith
  · unfold jsRound
    norm_num [FEE_RATE_DIVIDER]
  · norm_num [FEE_RATE_DIVIDER]

end TalentLayer
